import Mathlib

/-!
Shallow embedding of the ubuntu.com purchase-modal controller
(src/unnamed/part_000, the PurchaseModal React component) and of the
bundler entry map (src/webpack.config.entry.js).

The controller logic is sequential and event-driven: a submit handler
clears the error, emits a tracked checkout event and invokes an
asynchronous payment-method registration, whose success or failure
callback then mutates the component and cache state.  We embed one
submission as the explicit list of primitive operations the handler
performs (in source order), interpreted over a state record by a fold.
External collaborators that live outside the given sources
(getErrorMessage from the advantage error-handler, and
getUserInfoFromVariables from the utils module) are carried as
abstract function parameters in an `Externals` record, so every
theorem quantifies over all their possible implementations.
-/

namespace PurchaseModal

/-- A stored payment instrument; in the source an object, hence always
truthy when present. -/
structure PaymentMethod where
  id : String
  deriving DecidableEq

/-- The customerInfo field of the fetched user info
(userInfo.customerInfo in the source). -/
structure CustomerInfo where
  defaultPaymentMethod : Option PaymentMethod
  deriving DecidableEq

/-- Customer/account data fetched by useStripeCustomerInfo and cached
under the "userInfo" query key. -/
structure UserInfo where
  customerInfo : Option CustomerInfo
  deriving DecidableEq

/-- User-entered billing form values (the FormValues of utils); the
controller passes them opaquely to the registration call and to
getUserInfoFromVariables, so one representative field suffices. -/
structure FormValues where
  email : String
  deriving DecidableEq

/-- Successful response of the payment-method registration call; the
controller reads data.accountId and forwards the rest opaquely. -/
structure RegisterResponse where
  accountId : String
  deriving DecidableEq

/-- The GAFriendlyProduct value passed to checkoutEvent. -/
structure GAProduct where
  id : String
  name : String
  price : Nat
  quantity : Nat
  deriving DecidableEq

/-- Displayable error content set by the controller: the sign-in
redirect JSX, a message produced by the error classifier, or the
generic fallback JSX. -/
inductive ErrMsg where
  | signInRedirect
  | classified (text : String)
  | genericFallback
  deriving DecidableEq

/-- Argument object passed to getErrorMessage:
curly-brace literal with message and code fields. -/
structure ErrorParam where
  message : String
  code : String
  deriving DecidableEq

/-- The value a failed registration rejects with: either an instance of
Error carrying a message, or any other JavaScript value (the source
guards with instanceof Error and otherwise does nothing). -/
inductive RejectedValue where
  | errorInstance (message : String)
  | nonError
  deriving DecidableEq

/-- Outcome of the asynchronous registration call, selecting which
mutation callback runs. -/
inductive MutationResult where
  | success (data : RegisterResponse)
  | failure (e : RejectedValue)
  deriving DecidableEq

/-- External collaborators imported from repository modules outside the
given sources; kept abstract so results hold for every implementation. -/
structure Externals where
  getErrorMessage : ErrorParam → Option ErrMsg
  getUserInfoFromVariables : RegisterResponse → FormValues → UserInfo

/-- Primitive effects the submit handler performs, in source order. -/
inductive Op where
  | setError (e : Option ErrMsg)
  | trackCheckout (prod : GAProduct) (stage : String)
  | mutateRegister (formData : FormValues) (marketplace : String)
  | setWindowAccountId (id : String)
  | setStep (n : Nat)
  | setQueryData (key : String) (v : UserInfo)
  | invalidateQueries (key : String)
  | setSubmitting (b : Bool)
  | sentryCapture
  deriving DecidableEq

/-- Observable state of the modal controller: displayed error, UI step,
the window-scoped account identifier, the query cache entries for
"userInfo" and "preview", the Formik submitting flag, and counters for
the emitted checkout events and Sentry reports. -/
structure ModalState where
  error : Option ErrMsg
  step : Nat
  windowAccountId : Option String
  userInfoCache : Option UserInfo
  previewValid : Bool
  submitting : Bool
  checkoutEvents : Nat
  sentryReports : Nat
  deriving DecidableEq

/-- Interpretation of one primitive effect on the modal state. -/
def applyOp (s : ModalState) : Op → ModalState
  | .setError e => { s with error := e }
  | .trackCheckout _ _ => { s with checkoutEvents := s.checkoutEvents + 1 }
  | .mutateRegister _ _ => s
  | .setWindowAccountId i => { s with windowAccountId := some i }
  | .setStep n => { s with step := n }
  | .setQueryData key v =>
      if key = "userInfo" then { s with userInfoCache := some v } else s
  | .invalidateQueries key =>
      if key = "preview" then { s with previewValid := false } else s
  | .setSubmitting b => { s with submitting := b }
  | .sentryCapture => { s with sentryReports := s.sentryReports + 1 }

/-- Run a list of primitive effects left to right. -/
def run (s : ModalState) (ops : List Op) : ModalState :=
  ops.foldl applyOp s

/-- Effects of the onError callback: when the rejected value is an
Error instance, branch on its message being "email_already_exists",
otherwise consult getErrorMessage with an empty message and the code,
falling back to one Sentry capture plus the generic message; when the
rejected value is not an Error instance, do nothing; in every case
finish with setSubmitting false. -/
def onErrorOps (ext : Externals) (e : RejectedValue) : List Op :=
  (match e with
   | .errorInstance msg =>
       if msg = "email_already_exists" then
         [Op.setError (some ErrMsg.signInRedirect)]
       else
         match ext.getErrorMessage { message := "", code := msg } with
         | some m => [Op.setError (some m)]
         | none => [Op.sentryCapture, Op.setError (some ErrMsg.genericFallback)]
   | .nonError => []) ++ [Op.setSubmitting false]

/-- Effects of the onSuccess callback: store the response accountId in
the window-scoped variable, advance the step to 2, replace the
"userInfo" cache entry with getUserInfoFromVariables of the response
and the submitted form data, invalidate the "preview" cache entry, and
clear the submitting flag. -/
def onSuccessOps (ext : Externals) (data : RegisterResponse)
    (values : FormValues) : List Op :=
  [Op.setWindowAccountId data.accountId,
   Op.setStep 2,
   Op.setQueryData "userInfo" (ext.getUserInfoFromVariables data values),
   Op.invalidateQueries "preview",
   Op.setSubmitting false]

/-- Full effect trace of one submission with the given outcome:
setError null, checkoutEvent, the mutate call with the form values and
marketplace, then the effects of the callback the outcome selects. -/
def onSubmitOps (ext : Externals) (prod : GAProduct) (mk : String)
    (values : FormValues) (outcome : MutationResult) : List Op :=
  [Op.setError none, Op.trackCheckout prod "2", Op.mutateRegister values mk] ++
  (match outcome with
   | .success data => onSuccessOps ext data values
   | .failure e => onErrorOps ext e)

/-- State after one whole submission with the given outcome. -/
def onSubmit (ext : Externals) (prod : GAProduct) (mk : String)
    (values : FormValues) (outcome : MutationResult) (s : ModalState) :
    ModalState :=
  run s (onSubmitOps ext prod mk values outcome)

/-- Truthiness of the optional chain
userInfo question-mark customerInfo question-mark defaultPaymentMethod. -/
def hasDefaultPaymentMethod (u : Option UserInfo) : Bool :=
  match u with
  | none => false
  | some ui =>
      match ui.customerInfo with
      | none => false
      | some ci => ci.defaultPaymentMethod.isSome

/-- Initial value of the step state: the useState initializer
(the optional chain above deciding between 2 and 1). -/
def initialStep (u : Option UserInfo) : Nat :=
  if hasDefaultPaymentMethod u then 2 else 1

/-- The useEffect body keyed on userInfo: set the step to 2 when a
default payment method is present, otherwise change nothing. -/
def userInfoEffect (u : Option UserInfo) (s : ModalState) : ModalState :=
  if hasDefaultPaymentMethod u then { s with step := 2 } else s

/-- Controller-driven state transitions of the component: a submission
with its outcome, or the userInfo effect. -/
inductive ControllerAction where
  | submit (values : FormValues) (outcome : MutationResult)
  | effect (u : Option UserInfo)

/-- Apply one controller action to the modal state. -/
def applyAction (ext : Externals) (prod : GAProduct) (mk : String) :
    ControllerAction → ModalState → ModalState
  | .submit values outcome, s => onSubmit ext prod mk values outcome s
  | .effect u, s => userInfoEffect u s

/-- Actions after which the source sets the step to 2: a successful
registration, or the userInfo effect observing a default payment
method. -/
def stepAdvancing : ControllerAction → Bool
  | .submit _ (.success _) => true
  | .submit _ (.failure _) => false
  | .effect u => hasDefaultPaymentMethod u

/-- Recognize the effect that clears the submitting flag. -/
def isSetSubmittingFalse : Op → Bool
  | .setSubmitting false => true
  | _ => false

/-- Recognize the registration (mutate) call. -/
def isMutateCall : Op → Bool
  | .mutateRegister _ _ => true
  | _ => false

/-- Recognize a Sentry captureException report. -/
def isSentryReport : Op → Bool
  | .sentryCapture => true
  | _ => false

end PurchaseModal

namespace WebpackEntry

/-- A value of the bundler entry map: either a single module specifier
string or an array of module specifier strings. -/
inductive EntryValue where
  | single (path : String)
  | multi (paths : List String)
  deriving DecidableEq

/-- The module specifiers an entry value contains. -/
def entryPaths : EntryValue → List String
  | .single p => [p]
  | .multi ps => ps

/-- The module.exports object of webpack.config.entry.js, key by key. -/
def webpackEntry : List (String × EntryValue) :=
  [("contributions", .single "./static/js/src/contributions.js"),
   ("desktop-statistics", .single "./static/js/src/desktop-statistics.js"),
   ("tutorials", .multi ["./static/js/src/tutorial-list.js",
     "./static/js/src/tutorial.js"]),
   ("forms", .single "./static/js/src/forms.js"),
   ("image-download", .single "./static/js/src/image-download.js"),
   ("main", .multi ["url-polyfill", "url-search-params-polyfill",
     "./static/js/src/polyfills.js", "./static/js/src/contextual-menu.js",
     "./static/js/src/dynamic-contact-form.js", "./static/js/src/core.js",
     "./static/js/src/navigation.js", "./static/js/src/form-validation.js",
     "./static/js/src/scratch.js"]),
   ("release-chart", .single "./static/js/src/release-chart.js"),
   ("tabotronic", .single "./static/js/src/tabotronic.js"),
   ("appliance", .single "./static/js/src/appliance.js"),
   ("tco-calculator", .single "./static/js/src/tco-calculator.js"),
   ("ua-payment-modal", .single "./static/js/src/ua-payment-modal.js"),
   ("sticky-nav", .single "./static/js/src/sticky-nav.js"),
   ("imageBuilder", .single "./static/js/src/imageBuilder.js"),
   ("cve", .single "./static/js/src/cve/cve.js")]

/-- A module specifier naming a source file by path: in node/webpack
resolution, a request starting with a dot segment or a slash. -/
def isSourceFilePath (s : String) : Bool :=
  match s.data with
  | '/' :: _ => true
  | '.' :: '/' :: _ => true
  | '.' :: '.' :: '/' :: _ => true
  | _ => false

/-- A bare npm package specifier, resolved from node_modules rather
than read as a file path. -/
def isBareModuleName (s : String) : Bool :=
  !(isSourceFilePath s)

end WebpackEntry

namespace PurchaseModal

/-- Sample implementations of the external collaborators, used to
instantiate universally quantified theorems at concrete inputs. -/
def extSample : Externals :=
  { getErrorMessage := fun _ => none,
    getUserInfoFromVariables := fun _ _ => { customerInfo := none } }

/-- Sample GA product value. -/
def prodSample : GAProduct :=
  { id := "p1", name := "UA", price := 1000, quantity := 1 }

/-- Sample submitted form values. -/
def valuesSample : FormValues := { email := "a@b.com" }

/-- Sample modal state before a submission. -/
def stateSample : ModalState :=
  { error := some ErrMsg.genericFallback, step := 1, windowAccountId := none,
    userInfoCache := none, previewValid := true, submitting := true,
    checkoutEvents := 0, sentryReports := 0 }

/-- Sample fetched user info holding a default payment method. -/
def userInfoSample : UserInfo :=
  { customerInfo := some { defaultPaymentMethod := some { id := "pm_1" } } }

/-- Claim C1: a submission whose registration succeeds sets the
window-scoped account identifier to the response accountId, sets the
step to 2, replaces the "userInfo" cache entry with
getUserInfoFromVariables of the response and the submitted form data,
invalidates the "preview" cache entry, and clears the submitting
flag. -/
theorem c1_success_path (ext : Externals) (prod : GAProduct) (mk : String)
    (values : FormValues) (data : RegisterResponse) (s : ModalState) :
    (onSubmit ext prod mk values (MutationResult.success data) s).windowAccountId
        = some data.accountId ∧
    (onSubmit ext prod mk values (MutationResult.success data) s).step = 2 ∧
    (onSubmit ext prod mk values (MutationResult.success data) s).userInfoCache
        = some (ext.getUserInfoFromVariables data values) ∧
    (onSubmit ext prod mk values (MutationResult.success data) s).previewValid = false ∧
    (onSubmit ext prod mk values (MutationResult.success data) s).submitting = false := by
  simp [onSubmit, onSubmitOps, onSuccessOps, run, applyOp]

/-- Claim C2: a controller action yields step 2 exactly when the step
was already 2 or the action is step-advancing (detecting an existing
default payment method, or a successful registration); an action that
is not step-advancing leaves the step unchanged, so the controller
never regresses from 2 to 1. -/
theorem c2_step_invariant (ext : Externals) (prod : GAProduct) (mk : String)
    (a : ControllerAction) (s : ModalState) :
    ((applyAction ext prod mk a s).step = 2 ↔
        (s.step = 2 ∨ stepAdvancing a = true)) ∧
    (stepAdvancing a = false → (applyAction ext prod mk a s).step = s.step) := by
  cases a with
  | submit values outcome =>
    cases outcome with
    | success data =>
      simp [applyAction, stepAdvancing, onSubmit, onSubmitOps, onSuccessOps,
        run, applyOp]
    | failure e =>
      cases e with
      | errorInstance msg =>
        by_cases h : msg = "email_already_exists"
        · simp [applyAction, stepAdvancing, onSubmit, onSubmitOps, onErrorOps,
            h, run, applyOp]
        · cases hc : ext.getErrorMessage { message := "", code := msg } with
          | some m =>
            simp [applyAction, stepAdvancing, onSubmit, onSubmitOps,
              onErrorOps, h, hc, run, applyOp]
          | none =>
            simp [applyAction, stepAdvancing, onSubmit, onSubmitOps,
              onErrorOps, h, hc, run, applyOp]
      | nonError =>
        simp [applyAction, stepAdvancing, onSubmit, onSubmitOps, onErrorOps,
          run, applyOp]
  | effect u =>
    by_cases h : hasDefaultPaymentMethod u
    · simp [applyAction, userInfoEffect, stepAdvancing, h]
    · simp [applyAction, userInfoEffect, stepAdvancing, h]

/-- Witness for C2 at a concrete non-advancing action: a failed
submission leaves the step unchanged. -/
theorem c2_step_invariant_witness :
    (applyAction extSample prodSample "canonical-ua"
        (ControllerAction.submit valuesSample
          (MutationResult.failure RejectedValue.nonError)) stateSample).step
      = stateSample.step :=
  (c2_step_invariant extSample prodSample "canonical-ua"
    (ControllerAction.submit valuesSample
      (MutationResult.failure RejectedValue.nonError)) stateSample).2 rfl

/-- Claim C3: a submission failing with an Error whose message is
exactly "email_already_exists" sets the error to the sign-in-redirect
message and leaves the step unchanged. -/
theorem c3_email_exists (ext : Externals) (prod : GAProduct) (mk : String)
    (values : FormValues) (s : ModalState) :
    (onSubmit ext prod mk values
        (MutationResult.failure (RejectedValue.errorInstance "email_already_exists")) s).error
      = some ErrMsg.signInRedirect ∧
    (onSubmit ext prod mk values
        (MutationResult.failure (RejectedValue.errorInstance "email_already_exists")) s).step
      = s.step := by
  simp [onSubmit, onSubmitOps, onErrorOps, run, applyOp]

/-- Claim C4: a submission failing with an Error whose message is
neither "email_already_exists" nor classifiable by getErrorMessage
performs exactly one Sentry report and sets the error to the generic
fallback message. -/
theorem c4_unclassified (ext : Externals) (prod : GAProduct) (mk : String)
    (values : FormValues) (s : ModalState) (msg : String)
    (h1 : msg ≠ "email_already_exists")
    (h2 : ext.getErrorMessage { message := "", code := msg } = none) :
    (onSubmitOps ext prod mk values
        (MutationResult.failure (RejectedValue.errorInstance msg))).countP isSentryReport = 1 ∧
    (onSubmit ext prod mk values
        (MutationResult.failure (RejectedValue.errorInstance msg)) s).sentryReports
      = s.sentryReports + 1 ∧
    (onSubmit ext prod mk values
        (MutationResult.failure (RejectedValue.errorInstance msg)) s).error
      = some ErrMsg.genericFallback := by
  simp [onSubmit, onSubmitOps, onErrorOps, h1, h2, run, applyOp,
    isSentryReport, List.countP_cons]

/-- Witness for C4 at a concrete unclassifiable error code. -/
theorem c4_unclassified_witness :
    (onSubmitOps extSample prodSample "canonical-ua" valuesSample
        (MutationResult.failure (RejectedValue.errorInstance "card_declined"))).countP
        isSentryReport = 1 ∧
    (onSubmit extSample prodSample "canonical-ua" valuesSample
        (MutationResult.failure (RejectedValue.errorInstance "card_declined"))
        stateSample).sentryReports = stateSample.sentryReports + 1 ∧
    (onSubmit extSample prodSample "canonical-ua" valuesSample
        (MutationResult.failure (RejectedValue.errorInstance "card_declined"))
        stateSample).error = some ErrMsg.genericFallback :=
  c4_unclassified extSample prodSample "canonical-ua" valuesSample stateSample
    "card_declined" (by decide) rfl

/-- Claim C5: a submission failing with a value that is not an Error
instance displays no error message (the error stays null from the
clearing at submit), makes no Sentry report, and still clears the
submitting flag. -/
theorem c5_non_error (ext : Externals) (prod : GAProduct) (mk : String)
    (values : FormValues) (s : ModalState) :
    (onSubmit ext prod mk values
        (MutationResult.failure RejectedValue.nonError) s).error = none ∧
    (onSubmit ext prod mk values
        (MutationResult.failure RejectedValue.nonError) s).sentryReports
      = s.sentryReports ∧
    (onSubmit ext prod mk values
        (MutationResult.failure RejectedValue.nonError) s).submitting = false := by
  simp [onSubmit, onSubmitOps, onErrorOps, run, applyOp]

/-- Claim C6: the initial step is 2 when the fetched userInfo carries a
default payment method and 1 otherwise. -/
theorem c6_initial_step (u : Option UserInfo) :
    (hasDefaultPaymentMethod u = true → initialStep u = 2) ∧
    (hasDefaultPaymentMethod u = false → initialStep u = 1) := by
  by_cases h : hasDefaultPaymentMethod u <;> simp [initialStep, h]

/-- Witness for C6: a userInfo with a default payment method yields
initial step 2. -/
theorem c6_initial_step_witness : initialStep (some userInfoSample) = 2 :=
  (c6_initial_step (some userInfoSample)).1 rfl

/-- Claim C7: every submission trace starts by setting the error to
null, the registration call sits at position 2 of the trace, and
running the trace up to that call leaves the error null, whatever the
previous outcome left in the state. -/
theorem c7_error_cleared (ext : Externals) (prod : GAProduct) (mk : String)
    (values : FormValues) (outcome : MutationResult) (s : ModalState) :
    (onSubmitOps ext prod mk values outcome).head? = some (Op.setError none) ∧
    (onSubmitOps ext prod mk values outcome)[2]?
      = some (Op.mutateRegister values mk) ∧
    (run s ((onSubmitOps ext prod mk values outcome).take 2)).error = none := by
  simp [onSubmitOps, run, applyOp]

/-- Claim C8: the first three operations of every submission trace are,
in order, clearing the error, emitting the tracked checkout event, and
invoking registration with the form values and marketplace. -/
theorem c8_submit_order (ext : Externals) (prod : GAProduct) (mk : String)
    (values : FormValues) (outcome : MutationResult) :
    (onSubmitOps ext prod mk values outcome).take 3 =
      [Op.setError none, Op.trackCheckout prod "2",
       Op.mutateRegister values mk] := by
  simp [onSubmitOps]

/-- Claim C9: every submission trace, whatever the outcome, clears the
submitting flag exactly once, contains exactly one registration call
(no retry), and ends with the submitting flag false. -/
theorem c9_complete_once (ext : Externals) (prod : GAProduct) (mk : String)
    (values : FormValues) (outcome : MutationResult) (s : ModalState) :
    (onSubmitOps ext prod mk values outcome).countP isSetSubmittingFalse = 1 ∧
    (onSubmitOps ext prod mk values outcome).countP isMutateCall = 1 ∧
    (onSubmit ext prod mk values outcome s).submitting = false := by
  cases outcome with
  | success data =>
    simp [onSubmit, onSubmitOps, onSuccessOps, run, applyOp,
      isSetSubmittingFalse, isMutateCall, List.countP_cons]
  | failure e =>
    cases e with
    | errorInstance msg =>
      by_cases h : msg = "email_already_exists"
      · simp [onSubmit, onSubmitOps, onErrorOps, h, run, applyOp,
          isSetSubmittingFalse, isMutateCall, List.countP_cons]
      · cases hc : ext.getErrorMessage { message := "", code := msg } with
        | some m =>
          simp [onSubmit, onSubmitOps, onErrorOps, h, hc, run, applyOp,
            isSetSubmittingFalse, isMutateCall, List.countP_cons]
        | none =>
          simp [onSubmit, onSubmitOps, onErrorOps, h, hc, run, applyOp,
            isSetSubmittingFalse, isMutateCall, List.countP_cons]
    | nonError =>
      simp [onSubmit, onSubmitOps, onErrorOps, run, applyOp,
        isSetSubmittingFalse, isMutateCall, List.countP_cons]

end PurchaseModal

namespace WebpackEntry

/-- Counterexample to C10 as stated: not every value in the entry map
is made of source file paths; the "main" entry lists the bare package
specifiers "url-polyfill" and "url-search-params-polyfill". -/
theorem c10_counterexample :
    ¬ (∀ e ∈ webpackEntry, ∀ p ∈ entryPaths e.2,
        isSourceFilePath p = true) := by
  decide

/-- Claim C10 (amended): every entry associates a bundle name with one
module specifier or a list of module specifiers, each either a source
file path or a bare npm package name; every entry other than "main"
contains only source file paths. -/
theorem c10_amended_entries :
    (∀ e ∈ webpackEntry, ∀ p ∈ entryPaths e.2,
        isSourceFilePath p = true ∨ isBareModuleName p = true) ∧
    (∀ e ∈ webpackEntry, e.1 = "main" ∨
        ∀ p ∈ entryPaths e.2, isSourceFilePath p = true) := by
  decide

/-- Witness for the amended C10 at the "forms" entry. -/
theorem c10_amended_entries_witness :
    isSourceFilePath "./static/js/src/forms.js" = true ∨
    isBareModuleName "./static/js/src/forms.js" = true :=
  c10_amended_entries.1
    ("forms", EntryValue.single "./static/js/src/forms.js") (by decide)
    "./static/js/src/forms.js" (by decide)

end WebpackEntry
